import Mathlib

/-!
Shallow embedding of the appestat PDF/receipt parsing core
(`parser.py` and `receipt_parser.py`) and proofs about it.

Strings are modelled as Lean `String` / `List Char`.  Python's
case-mapping (`str.lower` / `str.upper`) is modelled character-wise with
`Char.toLower` / `Char.toUpper`, which agrees with Python on ASCII data
(all table keys and markers in the source are ASCII).  Python floats are
modelled as exact rationals `ℚ`; every numeric literal the parsers accept
has a short decimal form, where the two agree.
-/

namespace Appestat

/-- Python's ASCII whitespace class (`str.strip`, regex `\s`). -/
def isPySpace (c : Char) : Bool :=
  c = ' ' || c = '\t' || c = '\n' || c = '\r' || c = '\x0b' || c = '\x0c'

/-- Character-wise lowercasing, Python `str.lower` on ASCII. -/
def lowerL (l : List Char) : List Char := l.map Char.toLower

/-- Character-wise uppercasing, Python `str.upper` on ASCII. -/
def upperL (l : List Char) : List Char := l.map Char.toUpper

/-- Python `str.strip()`: drop whitespace from both ends. -/
def pyStripL (l : List Char) : List Char :=
  (l.dropWhile isPySpace).rdropWhile isPySpace

def pyStrip (s : String) : String := String.mk (pyStripL s.data)

/-- Boolean list-prefix test (used to model Python substring search). -/
def isPrefixB : List Char → List Char → Bool
  | [], _ => true
  | _ :: _, [] => false
  | a :: as, b :: bs => a = b && isPrefixB as bs

/-- Python's `needle in hay` substring containment on strings. -/
def substrB : List Char → List Char → Bool
  | n, [] => n.isEmpty
  | n, c :: t => isPrefixB n (c :: t) || substrB n t

/-- Python `needle in hay` on `String`s. -/
def containsS (needle hay : String) : Bool := substrB needle.data hay.data

/-- Boolean list-suffix test. -/
def isSuffixB (n h : List Char) : Bool := isPrefixB n.reverse h.reverse

/-! ## Normalizer (`parser.py`, `normalize_product_name`) -/

/-- Does the uppercased name end with the literal `" BONUS"`?
(Python: `name.upper().endswith(' BONUS')`.) -/
def endsWithBonus (l : List Char) : Bool :=
  isSuffixB " BONUS".data (upperL l)

/-- `normalize_product_name` on `List Char`: strip whitespace, then drop a
trailing case-insensitive `" BONUS"` (6 characters, `name[:-6]`) and
re-strip. -/
def normalizeL (l : List Char) : List Char :=
  let t := pyStripL l
  if endsWithBonus t then pyStripL (t.take (t.length - 6)) else t

/-- `normalize_product_name` from `parser.py`. -/
def normalize_product_name (s : String) : String := String.mk (normalizeL s.data)


/-! ## Category tables (`parser.py`) -/

/-- `CATEGORY_KEYWORDS` from `parser.py` (declaration order preserved). -/
def CATEGORY_KEYWORDS : List (String × List String) := [
  ("Zuivel & Eieren",
    ["melk", "yoghurt", "kaas", "boter", "room", "eieren", "ei ", "kwark", "creme fraiche",
    "slagroom", "cottage", "mascarpone", "ricotta", "zuivelspread", "kookzuivel", "sour cream",
    "griekse stijl", "zaanlander", "geraspt", "plakken", "45+", "48+", "mozzarella",
    "pecorino", "parmigiano", "feta", "zaanse hoeve", "burrata", "brie", "geitenkaas",
    "camembert", "gorgonzola", "gruyere", "emmentaler", "grana padano", "parmareggio",
    "manchego", "streeckgenoten", "schrama", "belegen", "jong belegen", "extra belegen", "oud",
    "alpro", "oatly", "mild & creamy", "margarine", "becel", "blue band", "vla",
    "kleintje vla", "custard"]),
  ("Groente & Fruit",
    ["tomaat", "tomaten", "appel", "peer", "banaan", "bananen", "aardappel", "sla", "rauwkost",
    "rauwkostsalade", "komkommer", "paprika", "wortel", "ui ", "uien", "knoflook",
    "champignon", "broccoli", "bloemkool", "spinazie", "prei", "courgette", "aubergine",
    "avocado", "mango", "ananas", "druiven", "sinaasappel", "citroen", "limoen", "aardbei",
    "bosbes", "frambo", "elstar", "peen", "roerbak", "snoepgroente", "trostomaten", "cherry",
    "roma", "julienne", "basilicum", "groente", "fruit", "dadels", "rozijn", "chiquita",
    "bimi", "sjalot", "gemengde salade", "salade erbij", "italiaanse mix", "salade mix",
    "lunchsalade", "caesar", "pompoen", "peterselie", "bieslook", "koriander", "dille", "munt",
    "tijm", "oregano", "rozemarijn", "dragon", "kervel", "salie", "laurier", "bonenkruid",
    "bosui", "lente-ui", "radijs", "rucola", "veldsla", "andijvie", "witlof", "rode kool",
    "witte kool", "savooiekool", "spitskool", "boerenkool", "snijbiet", "pak choi",
    "chinese kool", "ijsbergsla", "lollo", "radicchio", "venkel", "knolselderij", "selderij",
    "pastinaak", "bieten", "mais", "artisjok", "asperge", "zeekraal", "postelein", "shiitake",
    "oester", "sperziebonen", "tuinerwten", "doperwten", "sugarsnaps", "peultjes", "olijf",
    "taggiasca", "paddestoelen", "paddenstoel", "kappertjes", "kersen", "pruimen", "abrikozen",
    "perzik", "nectarine", "melon", "watermeloen", "kiwi", "granaatappel", "passievrucht",
    "lychee", "pitaya", "papaya", "kokosnoot", "vijgen", "grapefruit", "mandarijn",
    "clementine", "conference", "gala", "jonagold", "golden", "granny", "schaal", "tros",
    "doos", "krieltjes"]),
  ("Vlees & Vis",
    ["kip", "varken", "rund", "gehakt", "filet", "worst", "bacon", "ham", "kipfilet",
    "biefstuk", "schnitzel", "spek", "kalkoen", "lam", "scharrel", "kipdij", "rosbief",
    "haricot", "ossenhaas", "entrecote", "ribeye", "slavink", "hamburger", "cordon bleu",
    "kipdrumstick", "kippenvleugel", "spareribs", "pulled pork", "rookvlees", "pastrami",
    "salami", "chorizo", "pancetta", "prosciutto", "carpaccio", "tartaar", "riblap",
    "sucadelapje", "stoofvlees", "sticky chicken", "shoarma", "mortadella", "fuet", "besos",
    "zalm", "tonijn", "garnaal", "vis", "kabeljauw", "schelvis", "tilapia", "pangasius",
    "forel", "makreel", "haring", "kibbeling", "lekkerbek", "visstick", "visfilet",
    "rivierkreeft", "kreeft", "krab", "mosselen", "oesters", "inktvis", "calamares", "scampi",
    "coquilles", "gerookte", "warmgerookte", "warmgerookt", "garnalenkroket", "tempura",
    "garnalen rauw", "gepeld", "ansjovis", "princes", "plantaardige balletjes",
    "plantaardige burger", "plantaardig gehakt"]),
  ("Brood & Bakkerij",
    ["brood", "croissant", "stok", "pistolet", "bol", "baguette", "wrap", "pita", "toast",
    "beschuit", "cracker", "wasa", "volkoren", "waldkorn", "meergranen", "rogge", "spelt",
    "haver", "zuurdesem", "ciabatta", "focaccia", "naan", "chapati", "tortilla", "flatbread",
    "knäckebröd", "bagel", "muffin", "donut", "croffle", "pannenkoek", "poffertjes",
    "pizzabodem", "rosti", "boulogne", "pains", "taart", "cake", "gebak", "appelflap",
    "saucijzenbroodje", "kaasbroodje"]),
  ("Pasta, Rijst & Granen",
    ["pasta", "penne", "spaghetti", "macaroni", "noodle", "noedel", "lasagne", "fusilli",
    "tagliatelle", "fettuccine", "linguine", "rigatoni", "farfalle", "orzo", "tortellini",
    "ravioli", "gnocchi", "cappelletti", "wok ", "udon", "orecchiette", "de cecco", "barilla",
    "sfoglie", "rijst", "couscous", "havermout", "muesli", "quinoa", "bulgur", "polenta",
    "risotto", "basmati", "jasmine", "pandan", "arborio", "sesamzaad", "sesam", "kikkererwten",
    "zwarte bonen", "witte bonen", "bruine bonen", "linzen", "sojabonen", "kapucijners",
    "spliterwten", "tuinbonen", "limabonen", "kidneybonen", "cannellini", "borlotti",
    "lima bonen", "edamame", "peulvruchtenmix", "peulvruchten"]),
  ("Dranken",
    ["water", "cola", "fris", "sap", "limonade", "ice tea", "tonic", "bitter lemon", "cassis",
    "grenadine", "appelsap", "sinaasappelsap", "jus d\x27orange", "pellegrino", "spa ",
    "evian", "perrier", "mineraalwater", "thee", "koffie", "espresso", "cappuccino", "latte",
    "cacao", "chocomel", "capsules", "pads", "lungo", "ristretto", "perla", "pukka", "bier",
    "wijn", "prosecco", "champagne", "cava", "abdij", "blond", "leffe", "heineken", "grolsch",
    "amstel", "hertog", "energy", "sportdrank", "vitamin well", "red bull", "monster",
    "energy drink", "haverdrink", "sojadrink", "amandeldrink", "rijstdrink", "kokosdrink",
    "havermelk", "sojamelk", "amandelmelk", "sauvignon", "chardonnay", "merlot", "cabernet",
    "pinot", "rioja", "chianti", "malbec", "shiraz", "riesling", "gewurztraminer", "moscato",
    "blanc", "rouge", "rosé", "rose"]),
  ("Sauzen & Specerijen",
    ["saus", "ketchup", "mayo", "mayonaise", "mosterd", "pesto", "dressing", "vinaigrette",
    "aioli", "tzatziki", "hummus", "guacamole", "salsa", "tapenade", "sambal", "sriracha",
    "tabasco", "sojasaus", "ketjap", "teriyaki", "hoisin", "oestersaus", "vissaus",
    "worcestershire", "olie", "azijn", "balsamico", "olijfolie", "zonnebloemolie", "peper",
    "zout", "kruiden", "curry", "paprika poeder", "kaneel", "nootmuskaat", "komijn", "kurkuma",
    "gember", "kardamom", "kruidnagel", "steranijs", "korianderzaad", "venkelzaad", "kerrie",
    "garam masala", "ras el hanout", "za\x27atar", "sumak", "cayenne", "tomatenpuree", "puree",
    "passata", "pelati", "honing", "cuisine", "paturain", "bâton", "smaakmakermix", "jus",
    "fond", "bouillon", "roux"]),
  ("Snacks & Zoetwaren",
    ["chips", "popcorn", "pretzels", "pinda", "borrel", "dipsaus", "zeewier", "krokant",
    "kroketjes", "cheese bites", "kaaskoekje", "nootje", "noten", "walnoot", "amandel",
    "cashew", "notenmix", "hazelnoot", "pistache", "macadamia", "pecannoot", "paranoot",
    "terra noten", "terra walnoot", "terra amandel", "pijnboompitten", "chiazaad",
    "zonnebloempitten", "pompoenpitten", "lijnzaad", "kokossnippers", "kokosrasp", "chocola",
    "chocolade", "koek", "snoep", "drop", "kauwgom", "tony", "reep", "biscuit", "sticks",
    "cookies", "bonbon", "marshmallow", "lolly", "zuurtje", "winegums", "m&m", "stroopwafel",
    "slofje", "slofjes", "musket", "lettertje", "macarons", "paashaas", "gips",
    "knettersuiker", "tompoucen", "tompouce", "nougatine", "nougat", "wafel", "roomijs",
    "ijs ", "pavlova", "fruit mix", "mousse", "tiramisu", "panna cotta", "cheesecake",
    "brownie"]),
  ("Huishouden",
    ["wc", "schoon", "afwas", "wasmiddel", "waspoeder", "wasverzachter", "doekje", "sponge",
    "bezem", "dweil", "allesreiniger", "bleek", "ontkalker", "vaatwas", "glansspoelmiddel",
    "glasreiniger", "glassex", "mullrose", "azijn", "schoonmaakazijn", "spray",
    "pedaalemmerzak", "emmerzak", "papier", "toiletpapier", "keukenrol", "servet", "tissue",
    "tempo", "folie", "aluminiumfolie", "huishoudfolie", "bakpapier", "vershoudfolie", "zak",
    "vuilnis", "afvalzak", "diepvrieszak", "cocktail prikker", "prikker", "sateprikker",
    "bakje", "doeboek", "toetenvegers", "batterij", "lamp", "kaars", "lucifer", "aansteker"]),
  ("Persoonlijke Verzorging",
    ["shampoo", "conditioner", "haarlak", "gel", "mousse", "haarverf", "magic retouch",
    "l\x27oréal", "loreal", "douche", "zeep", "douchegel", "bodylotion", "bodycrème",
    "deodorant", "deo", "deoleen", "satin", "anti-transpirant", "creme", "lotion", "hand soap",
    "handzeep", "hygiene", "care mint", "refill", "tandpasta", "tandenb", "mondwater",
    "flosdraad", "elmex", "oral", "scheerm", "scheermes", "scheergel", "aftershave", "make",
    "mascara", "lippenstift", "nagellak", "wattenschijf", "wattenstaaf", "maandverband",
    "tampon", "condoom"]),
  ("Verpakking & Statiegeld",
    ["statiegeld", "krat", "fles", "blik", "tasje", "verpakking", "emballage"]),
  ("Bezorgkosten",
    ["bezorg", "aflever", "service"]),
  ("Abonnementen",
    ["premium", "abonnement", "lidmaatschap", "bundel"])
]

/-- The `priority_rules` list from `categorize_product` (`parser.py`),
in declaration order. -/
def priority_rules : List (List String × String) := [
  (["chips", "lentil chips", "tortilla chips", "nacho chips", "proper sea salt",
    "proper paprika", "proper sweet"],
    "Snacks & Zoetwaren"),
  (["muesli", "granola", "cruesli"],
    "Pasta, Rijst & Granen"),
  (["schoonmaakazijn", "mullrose", "vanish", "vlekverwijderaar"],
    "Huishouden"),
  (["pindakaas", "ahornsiroop", "maple", "harissa", "souq"],
    "Sauzen & Specerijen"),
  (["haverdrink", "sojadrink", "amandeldrink", "kokosdrink", "fever-tree", "ginger beer",
    "tonic"],
    "Dranken"),
  (["chocolade", "chocola", "chocoladefiguurtjes", "chocolade druppels"],
    "Snacks & Zoetwaren"),
  (["cashewnoten", "cashew", "noten"],
    "Snacks & Zoetwaren"),
  (["bulgur", "quinoa", "couscous"],
    "Pasta, Rijst & Granen"),
  (["ansjovis", "tonijn", "sardine"],
    "Vlees & Vis"),
  (["pukka", "thee", "chamomile", "night time", "after dinner"],
    "Dranken"),
  (["gyoza", "biltong", "knaks", "nduja", "cha siu"],
    "Vlees & Vis"),
  (["smint", "sportlife", "gums", "mints", "haribo", "liga", "pappadum", "vlokken", "venz"],
    "Snacks & Zoetwaren"),
  (["etos", "lenzen", "maandlenzen", "vloeistof", "azaron"],
    "Persoonlijke Verzorging"),
  (["pizza", "pinsa", "pizzetta"],
    "Brood & Bakkerij"),
  (["ramen", "brilliant broth", "itsu"],
    "Pasta, Rijst & Granen"),
  (["rivella", "fanta", "dr pepper", "hi-five", "charitea", "mojo", "maté", "fentimans",
    "elderflower", "coolbest"],
    "Dranken"),
  (["mars", "ijsrepen", "klene", "red band", "stophoest", "ben & jerry", "smoeltjes",
    "suikerschelpen", "mentos", "gum"],
    "Snacks & Zoetwaren"),
  (["hg ", "schoonmaak", "kookplaatreiniger", "beeldschermreiniger", "sportkleding",
    "tafelkleed"],
    "Huishouden"),
  (["chili", "chilli", "go-tan", "mazzetti", "condimento"],
    "Sauzen & Specerijen"),
  (["always", "inlegkruisje", "dailies"],
    "Persoonlijke Verzorging"),
  (["bladerdeeg", "filo", "easy bakery", "gist", "droge gist"],
    "Brood & Bakkerij"),
  (["vivera", "plantaardige chicken", "tenders"],
    "Vlees & Vis"),
  (["eru", "balans", "oat drink", "natrue"],
    "Zuivel & Eieren"),
  (["fairtrade original", "butter chicken", "curry kit"],
    "Sauzen & Specerijen"),
  (["coconut oil", "kokosolie", "biofan"],
    "Sauzen & Specerijen"),
  (["kloppudding", "dr. oetker", "pudding"],
    "Snacks & Zoetwaren")
]

/-- `SUBCATEGORY_KEYWORDS` from `parser.py`. -/
def SUBCATEGORY_KEYWORDS : List (String × List (String × List String)) := [
  ("Zuivel & Eieren", [
    ("Melk", ["melk", "halfvol", "volle melk", "magere melk", "lactosevrij"]),
    ("Kaas", ["kaas", "goudse", "gruyere", "pecorino", "mozzarella", "feta", "brie", "camembert",
      "parmesan", "manchego"]),
    ("Yoghurt & Kwark", ["yoghurt", "kwark", "griekse", "skyr", "cottage"]),
    ("Boter & Margarine", ["boter", "margarine", "becel", "blue band", "roomboter"]),
    ("Eieren", ["eieren", "ei ", "scharreleieren", "bio eieren"]),
    ("Room & Vla", ["slagroom", "room", "vla", "custard", "creme fraiche"]),
    ("Plantaardig", ["alpro", "oatly", "mild & creamy", "plantaardig"])
  ]),
  ("Groente & Fruit", [
    ("Groente", ["tomaat", "komkommer", "paprika", "wortel", "broccoli", "spinazie", "sla", "kool", "prei",
      "courgette", "champignon", "ui", "knoflook"]),
    ("Fruit", ["appel", "peer", "banaan", "druiven", "aardbei", "mango", "ananas", "sinaasappel",
      "citroen", "kiwi"]),
    ("Kruiden", ["basilicum", "peterselie", "bieslook", "koriander", "munt", "dille", "rozemarijn", "tijm"]),
    ("Peulvruchten", ["bonen", "kikkererwten", "linzen", "erwten", "peulvruchten"]),
    ("Salades", ["salade", "sla", "rucola", "rauwkost"]),
    ("Aardappelen", ["aardappel", "krieltjes", "puree", "friet"])
  ]),
  ("Vlees & Vis", [
    ("Kip", ["kip", "kipfilet", "kipgehakt", "kipdij", "drumstick", "vleugel"]),
    ("Rund & Varken", ["rund", "varken", "gehakt", "biefstuk", "schnitzel", "sparerib", "bacon", "spek"]),
    ("Vis", ["zalm", "tonijn", "kabeljauw", "garnaal", "vis", "forel", "makreel"]),
    ("Vleeswaren", ["ham", "salami", "filet americain", "rosbief", "chorizo", "pancetta", "prosciutto"]),
    ("Vegetarisch & Vegan", ["vegetarisch", "vegan", "plantaardig", "tofu", "tempeh", "vivera"]),
    ("Wild & Gevogelte", ["kalkoen", "eend", "konijn", "wild"])
  ]),
  ("Dranken", [
    ("Koffie", ["koffie", "espresso", "lungo", "nespresso", "cappuccino"]),
    ("Thee", ["thee", "tea", "pukka", "pickwick", "lipton"]),
    ("Frisdrank", ["cola", "fanta", "sprite", "pepsi", "sinas", "frisdrank", "dr pepper"]),
    ("Sap & Smoothies", ["sap", "jus", "smoothie", "appelsap", "sinaasappelsap"]),
    ("Bier", ["bier", "leffe", "heineken", "amstel", "jupiler", "hertog jan", "ipa", "pils"]),
    ("Wijn", ["wijn", "sauvignon", "chardonnay", "merlot", "pinot", "prosecco", "champagne"]),
    ("Sterke Drank", ["whisky", "vodka", "rum", "gin", "jenever", "likeur"]),
    ("Water", ["water", "spa", "chaudfontaine", "bar le duc"]),
    ("Sportdranken", ["red bull", "energy", "sportdrank", "aquarius", "aa drink"]),
    ("Plantaardige Dranken", ["haverdrink", "sojadrink", "amandeldrink", "kokosdrink"])
  ]),
  ("Snacks & Zoetwaren", [
    ("Chips & Noten", ["chips", "noten", "pinda", "cashew", "pistache", "borrelnoot"]),
    ("Snoep", ["snoep", "drop", "winegum", "lolly", "haribo", "smint", "mentos"]),
    ("Chocolade", ["chocola", "bonbon", "praline", "reep", "tony", "milka"]),
    ("Koekjes", ["koek", "biscuit", "speculaas", "stroopwafel", "bastogne"]),
    ("Ijs", ["ijs", "magnum", "cornetto", "ben & jerry"])
  ]),
  ("Brood & Bakkerij", [
    ("Brood", ["brood", "boterham", "volkoren", "wit brood", "meergranen", "pistolet"]),
    ("Gebak & Taart", ["taart", "gebak", "croissant", "appeltaart", "tompouce"]),
    ("Ontbijtproducten", ["muesli", "havermout", "cornflakes", "cruesli", "granola"]),
    ("Crackers & Toast", ["cracker", "toast", "beschuit", "knäckebröd"])
  ]),
  ("Sauzen & Specerijen", [
    ("Sauzen", ["saus", "mayonaise", "ketchup", "mosterd", "aioli"]),
    ("Kruiden & Specerijen", ["kruiden", "peper", "zout", "paprikapoeder", "komijn", "kerrie"]),
    ("Olie & Azijn", ["olie", "olijfolie", "azijn", "balsamico"]),
    ("Pasta Sauzen", ["pesto", "pastasaus", "bolognese", "arrabiata"])
  ])
]

/-- `skip_patterns` from `extract_products_from_text` (`parser.py`). -/
def skip_patterns : List String :=
  ["statiegeld", "retour", "klapkrat", "bezorgkosten", "verpakkingsmateriaal",
  "plastic verpakking", "koopzegels", "pagina ", "datum ", "factuurnummer", "debiteurnummer",
  "bestelling", "afleverdatum", "bezorgadres", "totaal", "boodschappen", "alle bedragen",
  "vragen over"]


/-! ## Classifier (`parser.py`, `categorize_product` and friends) -/

/-- The inner `for keyword in keywords` loop of the classifier: does any
keyword occur as a substring of the lowercased name? -/
def keywordHit : List String → List Char → Bool
  | [], _ => false
  | k :: ks, low => if substrB k.data low then true else keywordHit ks low

/-- The `for keywords, category in priority_rules` loop. -/
def scanRules : List (List String × String) → List Char → Option String
  | [], _ => none
  | (kws, cat) :: rest, low =>
    if keywordHit kws low then some cat else scanRules rest low

/-- The `for category, keywords in CATEGORY_KEYWORDS.items()` loop. -/
def scanCats : List (String × List String) → List Char → Option String
  | [], _ => none
  | (cat, kws) :: rest, low =>
    if keywordHit kws low then some cat else scanCats rest low

/-- `categorize_product` from `parser.py`: normalize, lowercase, priority
rules first, then the general keyword mapping, else `"Overig"`. -/
def categorize_product (product_name : String) : String :=
  let product_lower := lowerL (normalizeL product_name.data)
  match scanRules priority_rules product_lower with
  | some cat => cat
  | none =>
    match scanCats CATEGORY_KEYWORDS product_lower with
    | some cat => cat
    | none => "Overig"

/-- Association-list lookup modelling Python dict indexing / `in`
(insertion order, unique keys). -/
def lookupA {β : Type} : List (String × β) → String → Option β
  | [], _ => none
  | (k, v) :: rest, key => if k = key then some v else lookupA rest key

/-- The subcategory scan loop of `determine_subcategory`. -/
def scanSubcats : List (String × List String) → List Char → Option String
  | [], _ => none
  | (sub, kws) :: rest, low =>
    if keywordHit kws low then some sub else scanSubcats rest low

/-- `determine_subcategory` from `parser.py`: `none` whenever the category
has no entry in `SUBCATEGORY_KEYWORDS`; otherwise first subcategory whose
keyword list has a substring match against the lowercased raw name. -/
def determine_subcategory (product_name main_category : String) : Option String :=
  match lookupA SUBCATEGORY_KEYWORDS main_category with
  | none => none
  | some subcats => scanSubcats subcats (lowerL product_name.data)

/-- `categorize_product_full` from `parser.py`. -/
def categorize_product_full (product_name : String) : String × Option String :=
  let category := categorize_product product_name
  (category, determine_subcategory product_name category)

/-! ## Abbreviation expander (`receipt_parser.py`) -/

/-- `ABBREVIATION_MAP` from `receipt_parser.py` (declaration order preserved,
matching Python dict insertion order). -/
def ABBREVIATION_MAP : List (String × String) := [
  ("SNOEP PAPRIK", "AH Snoeppaprika"),
  ("TROSTOMAAT", "AH Trostomaten"),
  ("BIO POMPOEN", "AH Biologische pompoen"),
  ("AH BANANEN", "AH Bananen"),
  ("AH RAUWKOST", "AH Rauwkostsalade"),
  ("PAPRIKA GEEL", "AH Paprika geel"),
  ("SNOEPGROENTE", "AH Snoepgroente"),
  ("MANDARIJNEN", "AH Mandarijnen"),
  ("DRUIVEN", "AH Druiven"),
  ("PETERSELIE", "AH Peterselie"),
  ("KNOFLOOK", "AH Knoflook"),
  ("KOMKOMMER", "AH Komkommer"),
  ("AH HV MELK", "AH Halfvolle melk"),
  ("ALPRO MILD&C", "Alpro Mild & Creamy yoghurt"),
  ("AH KR MUESLI", "AH Krokante muesli"),
  ("AH HAVERDRIN", "AH Haverdrink"),
  ("BECEL LIGHT", "Becel Light margarine"),
  ("AH KLEINTJE", "AH Kleintje vla"),
  ("AH EXC WIJN", "AH Excellent wijn"),
  ("AH SAUV BL", "AH Sauvignon Blanc wijn"),
  ("LEFFE BLOND", "Leffe Blond bier"),
  ("LEFFE", "Leffe bier"),
  ("DE LUNGO", "Nespresso De Lungo koffie"),
  ("RED BULL", "Red Bull energy drink"),
  ("AH PISTOLETS", "AH Pistoletbroodjes"),
  ("AH HAVERMOUT", "AH Havermout"),
  ("AH TAARTDEEG", "AH Taartdeeg"),
  ("MINI CRACKER", "AH Mini crackers"),
  ("AH GOUDSE", "AH Goudse kaas"),
  ("GRUYERE", "AH Gruyère kaas"),
  ("PECORINO", "Pecorino kaas"),
  ("AH RIJSTWAF", "AH Rijstwafels"),
  ("CHEESE BITES", "AH Cheese bites"),
  ("AH NOTEN", "AH Notenmix"),
  ("PECANNOTEN", "AH Pecannoten"),
  ("MUSKETBOMEN", "Musketbomen gebak"),
  ("AH HAGELSLAG", "AH Hagelslag chocolade"),
  ("KIPGEHAKT", "AH Kipgehakt"),
  ("AH PANCETTA", "AH Pancetta spek"),
  ("AH CHUTNEY", "AH Chutney saus"),
  ("AH BOEMBOE", "AH Boemboe kruidenpasta"),
  ("PICARD", "Picard diepvriesmaaltijd")
]


/-- The `for abbrev, full in ABBREVIATION_MAP.items()` prefix-scan loop of
`expand_abbreviation`. -/
def scanAbbrev : List (String × String) → List Char → Option (String × String)
  | [], _ => none
  | (k, v) :: rest, up =>
    if isPrefixB k.data up then some (k, v) else scanAbbrev rest up

/-- `expand_abbreviation` from `receipt_parser.py`: strip, exact uppercase
lookup, then first key that is a prefix of the uppercased name (remainder of
the stripped original-cased name appended verbatim), else the stripped
name. -/
def expand_abbreviation (s : String) : String :=
  let name := pyStripL s.data
  match lookupA ABBREVIATION_MAP (String.mk (upperL name)) with
  | some full => full
  | none =>
    match scanAbbrev ABBREVIATION_MAP (upperL name) with
    | some kv => kv.2 ++ String.mk (name.drop kv.1.length)
    | none => String.mk name

/-! ## Tax-rate heuristic (`receipt_parser.py`, `guess_btw`) -/

/-- `stop_markers` from `extract_products_from_receipt`. -/
def stop_markers : List String :=
  ["SUBTOTAAL", "BONUS ", "UW VOORDEEL", "TOTAAL", "BETAALD", "SPAARACTIES", "KOOPZEGELS"]

/-- `btw_21_keywords` from `guess_btw` (`receipt_parser.py`). -/
def btw_21_keywords : List String :=
  ["leffe", "wijn", "bier", "whisky", "vodka", "rum", "gin", "red bull", "cola", "fanta",
  "sprite", "pepsi", "7up", "statiegeld", "plastic", "verpakking", "shampoo", "tandpasta",
  "zeep", "douche", "deo", "schoonmaak", "afwasmiddel"]

/-- `guess_btw` from `receipt_parser.py`: `"21%"` if any keyword of the
fixed alcohol/soft-drink/non-food list occurs in the lowercased name,
else `"9%"`. -/
def guess_btw (product_name : String) : String :=
  if keywordHit btw_21_keywords (lowerL product_name.data) then "21%" else "9%"

/-! ## Receipt line grammars (`receipt_parser.py`, `parse_product_line`)

Each regex is embedded as a deterministic functional parser that mirrors
the Python engine's backtracking order.  Greedy runs (`\\d+`, `\\s+`,
`[\\d,]+`) whose follower cannot match their own character class are
forced to be maximal; the lazy `(.+?)` name group is scanned shortest
first; giving spaces of a preceding `\\s+` back to the name is tried
only after every longer-whitespace alternative has failed, exactly as the
engine backtracks.  Lines handed to these parsers come from
`text.split("\\n")`, so the `.`-excludes-newline rule has no effect. -/

/-- Python `int` of a run of decimal digit characters. -/
def digitsToNat (l : List Char) : Nat :=
  l.foldl (fun a c => a * 10 + (c.toNat - 48)) 0

/-- Exact value of a price group `<digits><sep><d1><d2>`
(Python `float(s.replace(",", "."))`). -/
def priceQ (p : List Char × Char × Char) : ℚ :=
  digitsToNat p.1 + ((10 * (p.2.1.toNat - 48) + (p.2.2.toNat - 48) : ℕ) : ℚ) / 100

/-- Exact value of a decimal `<digits><sep><fracDigits>` (the weight group). -/
def fracQ (ds fs : List Char) : ℚ :=
  digitsToNat ds + (digitsToNat fs : ℚ) / (10 : ℚ) ^ fs.length

/-- Regex `\\s+(\\d+[,\\.]\\d{2})`: a whitespace run then a price group;
returns the group (integer digits and the two cent digits) and the rest. -/
def spanPrice (t : List Char) : Option ((List Char × Char × Char) × List Char) :=
  let sp := t.takeWhile isPySpace
  let r := t.dropWhile isPySpace
  if sp.isEmpty then none else
  let ds := r.takeWhile Char.isDigit
  let r2 := r.dropWhile Char.isDigit
  if ds.isEmpty then none else
  match r2 with
  | c :: d1 :: d2 :: rest =>
    if (c = ',' || c = '.') && d1.isDigit && d2.isDigit then
      some ((ds, d1, d2), rest)
    else none
  | _ => none

/-- Regex `(?:\\s+B)?$`: optional whitespace-plus-`B`, then end of line. -/
def optTrailB (t : List Char) : Bool :=
  t.isEmpty ||
    (!(t.takeWhile isPySpace).isEmpty && t.dropWhile isPySpace = ['B'])

/-- Case-insensitive variant (the weighed-item pattern carries
`re.IGNORECASE`). -/
def optTrailBi (t : List Char) : Bool :=
  t.isEmpty ||
    (!(t.takeWhile isPySpace).isEmpty &&
      (t.dropWhile isPySpace = ['B'] || t.dropWhile isPySpace = ['b']))

/-- Tail of the single-unit pattern after the name group. -/
def tailSingle (t : List Char) : Option (List Char × Char × Char) :=
  match spanPrice t with
  | some (p, rest) => if optTrailB rest then some p else none
  | none => none

/-- Tail of the multi-unit pattern after the name group. -/
def tailMulti (t : List Char) :
    Option ((List Char × Char × Char) × (List Char × Char × Char)) :=
  match spanPrice t with
  | some (p1, rest) =>
    match spanPrice rest with
    | some (p2, rest2) => if optTrailB rest2 then some (p1, p2) else none
    | none => none
  | none => none

/-- Tail of the weighed-item pattern after the name group. -/
def tailMultiI (t : List Char) :
    Option ((List Char × Char × Char) × (List Char × Char × Char)) :=
  match spanPrice t with
  | some (p1, rest) =>
    match spanPrice rest with
    | some (p2, rest2) => if optTrailBi rest2 then some (p1, p2) else none
    | none => none
  | none => none

/-- Lazy scan of `(.+?)` followed by a tail pattern: shortest nonempty name
first, mirroring the engine's backtracking order. -/
def lazyScan {β : Type} (tail : List Char → Option β) :
    List Char → List Char → Option (List Char × β)
  | _, [] => none
  | acc, c :: r =>
    match tail r with
    | some b => some (acc ++ [c], b)
    | none => lazyScan tail (acc ++ [c]) r

/-- Backtracking of the `\\s+` before the name group: consume all of the
whitespace run `sp` first, then give spaces back to the name one at a time
(at least one space stays consumed). -/
def scanFromK {β : Type} (tail : List Char → Option β) (sp rest2 : List Char) :
    Nat → Option (List Char × β)
  | 0 => none
  | Nat.succ k =>
    match lazyScan tail [] (sp.drop (Nat.succ k) ++ rest2) with
    | some r => some r
    | none => scanFromK tail sp rest2 k

/-- Head of the weighed-item pattern: `^(\\d+[.,]\\d+)KG` (IGNORECASE). -/
def weightHead (l : List Char) : Option ((List Char × List Char) × List Char) :=
  let ds := l.takeWhile Char.isDigit
  let r := l.dropWhile Char.isDigit
  if ds.isEmpty then none else
  match r with
  | c :: r2 =>
    if c = '.' || c = ',' then
      let fs := r2.takeWhile Char.isDigit
      let r3 := r2.dropWhile Char.isDigit
      if fs.isEmpty then none else
      match r3 with
      | k :: g :: r4 =>
        if (k = 'K' || k = 'k') && (g = 'G' || g = 'g') then
          some ((ds, fs), r4)
        else none
      | _ => none
    else none
  | [] => none

/-- Head of the multi/single-unit patterns: `^(\\d+)\\s+`; returns the
quantity digits, the whitespace run and what follows it. -/
def qtyHead (l : List Char) : Option (List Char × List Char × List Char) :=
  let ds := l.takeWhile Char.isDigit
  let r := l.dropWhile Char.isDigit
  if ds.isEmpty then none else
  let sp := r.takeWhile isPySpace
  let r2 := r.dropWhile isPySpace
  if sp.isEmpty then none else
  some (ds, sp, r2)

/-- Receipt pattern 1 (weighed item):
`^(\\d+[.,]\\d+)KG\\s+(.+?)\\s+(\\d+[,\\.]\\d{2})\\s+(\\d+[,\\.]\\d{2})(?:\\s+B)?$`. -/
def weight_match (l : List Char) :
    Option ((List Char × List Char) × List Char ×
      (List Char × Char × Char) × (List Char × Char × Char)) :=
  match weightHead l with
  | some (w, rest) =>
    let sp := rest.takeWhile isPySpace
    let r2 := rest.dropWhile isPySpace
    if sp.isEmpty then none else
    match scanFromK tailMultiI sp r2 sp.length with
    | some (name, p1, p2) => some (w, name, p1, p2)
    | none => none
  | none => none

/-- Receipt pattern 2 (multi-unit):
`^(\\d+)\\s+(.+?)\\s+(\\d+[,\\.]\\d{2})\\s+(\\d+[,\\.]\\d{2})(?:\\s+B)?$`. -/
def multi_match (l : List Char) :
    Option (List Char × List Char ×
      (List Char × Char × Char) × (List Char × Char × Char)) :=
  match qtyHead l with
  | some (ds, sp, r2) =>
    match scanFromK tailMulti sp r2 sp.length with
    | some (name, p1, p2) => some (ds, name, p1, p2)
    | none => none
  | none => none

/-- Receipt pattern 3 (single-unit):
`^(\\d+)\\s+(.+?)\\s+(\\d+[,\\.]\\d{2})(?:\\s+B)?$`. -/
def single_match (l : List Char) :
    Option (List Char × List Char × (List Char × Char × Char)) :=
  match qtyHead l with
  | some (ds, sp, r2) =>
    match scanFromK tailSingle sp r2 sp.length with
    | some (name, p) => some (ds, name, p)
    | none => none
  | none => none

/-! ## Emitted items -/

/-- One parsed line item (a Python dict in the source; `Option` fields model
keys that only some extractors attach). -/
structure Product where
  name : String
  original_name_raw : Option String := none
  quantity : Int
  btw : String
  price : ℚ
  category : String
  subcategory : Option String
  weight_kg : Option ℚ := none
  deriving Repr, DecidableEq

/-- Python `re.sub(r"\\s+B$", "", name)`: drop one trailing
whitespace-run-plus-`B`. -/
def subTrailingB (l : List Char) : List Char :=
  match l.reverse with
  | 'B' :: r =>
    if (r.takeWhile isPySpace).isEmpty then l else (r.dropWhile isPySpace).reverse
  | _ => l

/-- Python `f"{weight:.3f}"` for a weight parsed as `<ds>.<fs>`; exact when
the source has at most three fractional digits (these receipts print
exactly three), truncating beyond that. -/
def fmt3 (ds fs : List Char) : String :=
  let fracVal :=
    if fs.length ≤ 3 then digitsToNat fs * 10 ^ (3 - fs.length)
    else digitsToNat (fs.take 3)
  let fsStr := toString fracVal
  toString (digitsToNat ds) ++ "." ++
    String.mk (List.replicate (3 - fsStr.length) '0') ++ fsStr

/-- The item a weighed receipt line produces (`parse_product_line`,
pattern 1): quantity fixed at 1, tax `"9%"`, display name suffixed with the
three-decimal weight, `weight_kg` attached. -/
def weightItem (w : List Char × List Char) (nameRaw : List Char)
    (ptot : List Char × Char × Char) : Product :=
  let name1 := normalize_product_name (expand_abbreviation (String.mk (pyStripL nameRaw)))
  { name := name1 ++ " (" ++ fmt3 w.1 w.2 ++ "kg)"
    quantity := 1
    price := priceQ ptot
    btw := "9%"
    category := categorize_product name1
    subcategory := determine_subcategory name1 (categorize_product name1)
    weight_kg := some (fracQ w.1 w.2) }

/-- The item a multi-unit or single-unit receipt line produces
(`parse_product_line`, patterns 2 and 3, which build the same dict): strip,
drop a trailing `B` marker, expand the abbreviation, normalize, infer the
tax rate with `guess_btw`. -/
def unitItem (qds nameRaw : List Char) (pr : List Char × Char × Char) : Product :=
  let name1 := normalize_product_name (expand_abbreviation
    (String.mk (subTrailingB (pyStripL nameRaw))))
  { name := name1
    quantity := (digitsToNat qds : Int)
    price := priceQ pr
    btw := guess_btw name1
    category := categorize_product name1
    subcategory := determine_subcategory name1 (categorize_product name1) }

/-- `parse_product_line` from `receipt_parser.py`: the three line-shape
grammars tried in order (weighed, multi-unit, single-unit); the multi-unit
item's price is the line's total (fourth group). -/
def parse_product_line (line : String) : Option Product :=
  ((weight_match line.data).map fun v => weightItem v.1 v.2.1 v.2.2.2).orElse fun _ =>
    ((multi_match line.data).map fun v => unitItem v.1 v.2.1 v.2.2.2).orElse fun _ =>
      (single_match line.data).map fun v => unitItem v.1 v.2.1 v.2.2

/-! ## Receipt extractor (`receipt_parser.py`,
`extract_products_from_receipt`) -/

/-- Blank/header skip of the receipt line loop (checked on the stripped
line, case-sensitively). -/
def isHeaderSkip (s : List Char) : Bool :=
  s.isEmpty || substrB "OMSCHRIJVING".data s || substrB "BONUSKAART".data s ||
    substrB "AIRMILES".data s

/-- Stop condition: some stop marker occurs in the uppercased line. -/
def hitsStop (s : List Char) : Bool :=
  stop_markers.any (fun m => substrB m.data (upperL s))

/-- Deposit-line skip (`+STATIEGELD` at the start or `STATIEGELD` anywhere
in the uppercased line). -/
def isStatiegeldSkip (s : List Char) : Bool :=
  isPrefixB "+STATIEGELD".data s || substrB "STATIEGELD".data (upperL s)

/-- Python `text.split("\\n")`: split on every newline, keeping empty
pieces (`"".split` gives one empty piece). -/
def splitLines : List Char → List (List Char)
  | [] => [[]]
  | c :: t =>
    if c = '\n' then [] :: splitLines t
    else
      match splitLines t with
      | h :: r => (c :: h) :: r
      | [] => [[c]]

/-- The line loop of `extract_products_from_receipt`: skip blanks/headers,
stop the whole document at a stop marker, skip deposit lines, otherwise
try `parse_product_line`. -/
def receiptLines : List String → List Product
  | [] => []
  | l :: rest =>
    let s := pyStripL l.data
    if isHeaderSkip s then receiptLines rest
    else if hitsStop s then []
    else if isStatiegeldSkip s then receiptLines rest
    else
      match parse_product_line (String.mk s) with
      | some p => p :: receiptLines rest
      | none => receiptLines rest

/-- `extract_products_from_receipt` from `receipt_parser.py`. -/
def extract_products_from_receipt (text : String) : List Product :=
  receiptLines ((splitLines text.data).map String.mk)

/-! ## Invoice extractor (`parser.py`, `extract_products_from_text`)

The grammar
`^(<Name>)\\s+(\\d+)\\s+(9%|21%|Geen)\\s+([\\d,]+)\\s+([\\d,]+)\\s+([\\d,]+)$`
is scanned over the whole text with `finditer` under `re.MULTILINE`:
`^` matches at the start of the text and after every newline, `$` at the
end of the text and before every newline, and matches are found scanning
left to right, non-overlapping.  Both the name class and the `\\s+`
separators contain `\\s`, which matches the newline itself, so a single
match may span physical lines.  The model therefore attempts the anchored
match at every line-start suffix of the text in position order and, after
a match, resumes at the first line start at or past the match end (no
line start can fall at the match end itself, since a match never ends
just after a newline).  All greedy runs in the tail are forced maximal:
their follower can never match their own character class, and a shortened
final amount run leaves a digit or comma where `$` needs a newline or the
end of the text.  The three tax alternatives start with distinct
characters, so only the lazy name group backtracks. -/

/-- The accented characters admitted by the invoice name class. -/
def accentChars : List Char := "àáâãäåæçèéêëìíîïðñòóôõöøùúûüýþÿÀÁÂÃÄÅÆÇÈÉÊËÌÍÎÏÐÑÒÓÔÕÖØÙÚÛÜÝÞß".data

/-- The invoice name character class
`[A-Za-z0-9<accents>\x27&\\s\\-\\+\\.%]`. -/
def isNameChar (c : Char) : Bool :=
  ('A' ≤ c && c ≤ 'Z') || ('a' ≤ c && c ≤ 'z') || c.isDigit ||
    accentChars.contains c || c = '\x27' || c = '&' || isPySpace c ||
    c = '-' || c = '+' || c = '.' || c = '%'

/-- Amount class `[\\d,]`. -/
def isAmtChar (c : Char) : Bool := c.isDigit || c = ','

/-- `\\s+`: at least one whitespace character, consumed maximally. -/
def spanSp1 (t : List Char) : Option (List Char) :=
  if (t.takeWhile isPySpace).isEmpty then none else some (t.dropWhile isPySpace)

/-- `([\\d,]+)`: a maximal nonempty amount group. -/
def spanAmt (t : List Char) : Option (List Char × List Char) :=
  let a := t.takeWhile isAmtChar
  if a.isEmpty then none else some (a, t.dropWhile isAmtChar)

/-- The `(9%|21%|Geen)` alternation (tried in order). -/
def taxAlt (t : List Char) : Option (String × List Char) :=
  if isPrefixB "9%".data t then some ("9%", t.drop 2)
  else if isPrefixB "21%".data t then some ("21%", t.drop 3)
  else if isPrefixB "Geen".data t then some ("Geen", t.drop 4)
  else none

/-- `$` under `re.MULTILINE`: end of input or just before a newline. -/
def atDollar : List Char → Bool
  | [] => true
  | c :: _ => c = '\n'

/-- The invoice grammar tail after the name group: quantity, tax rate and
the three amount columns, ending at a `$` position; also returns the
remaining text after the match. -/
def invTail (t : List Char) :
    Option (List Char × String × List Char × List Char × List Char × List Char) :=
  match spanSp1 t with
  | none => none
  | some r1 =>
    let q := r1.takeWhile Char.isDigit
    let r2 := r1.dropWhile Char.isDigit
    if q.isEmpty then none else
    match spanSp1 r2 with
    | none => none
    | some r3 =>
      match taxAlt r3 with
      | none => none
      | some (tax, r4) =>
        match spanSp1 r4 with
        | none => none
        | some r5 =>
          match spanAmt r5 with
          | none => none
          | some (a1, r6) =>
            match spanSp1 r6 with
            | none => none
            | some r7 =>
              match spanAmt r7 with
              | none => none
              | some (a2, r8) =>
                match spanSp1 r8 with
                | none => none
                | some r9 =>
                  match spanAmt r9 with
                  | none => none
                  | some (a3, r10) =>
                    if atDollar r10 then some (q, tax, a1, a2, a3, r10) else none

/-- Lazy scan of the invoice name group (`[...]+?` after the leading
capital): shortest extension first. -/
def goInv (acc : List Char) :
    List Char →
      Option (List Char × (List Char × String × List Char × List Char × List Char × List Char))
  | [] => none
  | c :: r =>
    if isNameChar c then
      match invTail r with
      | some g => some (acc ++ [c], g)
      | none => goInv (acc ++ [c]) r
    else none

/-- The anchored match of the invoice grammar at one `^` position. -/
def invoiceLineMatch (l : List Char) :
    Option (List Char × (List Char × String × List Char × List Char × List Char × List Char)) :=
  match l with
  | [] => none
  | c :: rest => if 'A' ≤ c && c ≤ 'Z' then goInv [c] rest else none

/-- Python `str.isdigit` (ASCII): nonempty and all digits. -/
def pyIsDigitStr (l : List Char) : Bool := !l.isEmpty && l.all Char.isDigit

/-- Python `float(s.replace(",", "."))` on a `[\\d,]+` amount group:
`none` models the `ValueError` raised when the dotted form is not a valid
float literal (more than one comma, or a lone comma). -/
def pyFloatAmt (l : List Char) : Option ℚ :=
  match l.splitOn ',' with
  | [a] => if a.isEmpty then none else some (digitsToNat a)
  | [a, b] =>
    if a.isEmpty && b.isEmpty then none
    else some (digitsToNat a + (digitsToNat b : ℚ) / (10 : ℚ) ^ b.length)
  | _ => none

/-- The item an invoice line emits (`products.append` in
`extract_products_from_text`): normalized display name, the stripped raw
name, the printed quantity and tax column, the gross amount, and the
classification of the raw name. -/
def invoiceItem (original_name : String) (qds : List Char) (tax : String)
    (price : ℚ) : Product :=
  { name := normalize_product_name original_name
    original_name_raw := some original_name
    quantity := (digitsToNat qds : Int)
    btw := tax
    price := price
    category := categorize_product original_name
    subcategory := determine_subcategory original_name
      (categorize_product original_name) }

/-- The suffixes of the text after each newline, in position order: the
`^` anchor positions of `re.MULTILINE` apart from the text start. -/
def lineStartsAux : List Char → List (List Char)
  | [] => []
  | c :: r => if c = '\n' then r :: lineStartsAux r else lineStartsAux r

/-- Every `^` anchor position of `re.MULTILINE`, as a suffix of the text:
the whole text, then the suffix after each newline. -/
def lineStarts (t : List Char) : List (List Char) := t :: lineStartsAux t

/-- The `finditer` scan: attempt the anchored match at each line start in
position order; after a match, keep only the line starts at or past the
match end (suffix length at most the match remainder's length), so
matches never overlap. -/
def invLoop :
    List (List Char) →
      List (List Char × List Char × String × List Char × List Char × List Char)
  | [] => []
  | l :: ls =>
    match invoiceLineMatch l with
    | none => invLoop ls
    | some (nameG, qds, tax, a1, a2, a3, rest) =>
      (nameG, qds, tax, a1, a2, a3) ::
        invLoop (ls.filter (fun s => s.length ≤ rest.length))
termination_by l => l.length
decreasing_by
  · simp
  · simp only [List.length_cons, Nat.lt_succ_iff]
    exact List.length_filter_le _ _

/-- The per-match loop of `extract_products_from_text`
(`for match in product_pattern.finditer(text)`), carrying the
`seen_products` deduplication set as a list of
`(normalized name, quantity, price)` keys.  Returns `none` when a match's
gross-amount group is not a valid float (the source raises `ValueError`
there before any skip filter runs, aborting the whole extraction). -/
def invoiceProcess :
    List (List Char × List Char × String × List Char × List Char × List Char) →
      List (String × Int × ℚ) → Option (List Product)
  | [], _ => some []
  | (nameG, qds, tax, _a1, _a2, a3) :: rest, seen =>
    match pyFloatAmt a3 with
    | none => none
    | some price =>
      let original_name := String.mk (pyStripL nameG)
      let nLower := lowerL original_name.data
      if skip_patterns.any (fun sp => substrB sp.data nLower) then
        invoiceProcess rest seen
      else if original_name.length < 3 then invoiceProcess rest seen
      else if pyIsDigitStr (original_name.data.filter (fun c => c ≠ ' ')) then
        invoiceProcess rest seen
      else
        let display := normalize_product_name original_name
        let key := (display, (digitsToNat qds : Int), price)
        if seen.contains key then invoiceProcess rest seen
        else
          (invoiceProcess rest (key :: seen)).map
            (fun ps => invoiceItem original_name qds tax price :: ps)

/-- `extract_products_from_text` from `parser.py`. -/
def extract_products_from_text (text : String) : Option (List Product) :=
  invoiceProcess (invLoop (lineStarts text.data)) []

/-! ## Keyword-table mutation (`parser.py`) -/

/-- The result dict of the mutation operations
(`{"success": bool, "error": str}`). -/
structure MutResult where
  success : Bool
  error : Option String := none
  deriving Repr, DecidableEq

/-- `add_keyword_to_category` from `parser.py`, with the table passed and
returned explicitly (the source mutates the module-global
`CATEGORY_KEYWORDS` in place). -/
def add_keyword_to_category (category keyword : String)
    (tbl : List (String × List String)) :
    MutResult × List (String × List String) :=
  let kw := String.mk (lowerL (pyStripL keyword.data))
  if kw = "" then
    ({ success := false, error := some "Keyword cannot be empty" }, tbl)
  else
    match lookupA tbl category with
    | none =>
      ({ success := false,
         error := some ("Category \x27" ++ category ++ "\x27 not found") }, tbl)
    | some kws =>
      if kws.contains kw then
        ({ success := false,
           error := some ("Keyword \x27" ++ kw ++ "\x27 already exists in " ++ category) },
         tbl)
      else
        ({ success := true },
         tbl.map (fun e => if e.1 = category then (e.1, e.2 ++ [kw]) else e))

/-- `remove_keyword_from_category` from `parser.py` (`list.remove` drops the
first occurrence). -/
def remove_keyword_from_category (category keyword : String)
    (tbl : List (String × List String)) :
    MutResult × List (String × List String) :=
  let kw := String.mk (lowerL (pyStripL keyword.data))
  match lookupA tbl category with
  | none =>
    ({ success := false,
       error := some ("Category \x27" ++ category ++ "\x27 not found") }, tbl)
  | some kws =>
    if !kws.contains kw then
      ({ success := false,
         error := some ("Keyword \x27" ++ kw ++ "\x27 not found in " ++ category) }, tbl)
    else
      ({ success := true },
       tbl.map (fun e => if e.1 = category then (e.1, e.2.erase kw) else e))

/-! ## Spec-side definitions

The claims of the specification name the stop markers abstractly; the six
markers the spec lists (subtotal, bonus-summary, total-due, paid,
savings-actions, loyalty-stamps) are these.  (The source has one more,
`"UW VOORDEEL"`.) -/

/-- The six stop markers named by the specification. -/
def claimStopMarkers : List String :=
  ["SUBTOTAAL", "BONUS ", "TOTAAL", "BETAALD", "SPAARACTIES", "KOOPZEGELS"]

/-! # Theorems -/

/-! ### Helper lemmas about `dropWhile`/strip -/

theorem dropWhile_headF {α : Type} (p : α → Bool) :
    ∀ l : List α, (∀ c, l.head? = some c → p c = false) → l.dropWhile p = l
  | [], _ => rfl
  | a :: t, h => by simp [List.dropWhile_cons, h a rfl]

theorem headF_of_dropWhile_eq_self {α : Type} (p : α → Bool) (l : List α)
    (h : l.dropWhile p = l) : ∀ c, l.head? = some c → p c = false := by
  cases l with
  | nil => intro c hc; cases hc
  | cons a t =>
    intro c hc
    by_cases hp : p a
    · exfalso
      have hlen : (t.dropWhile p).length ≤ t.length :=
        (List.dropWhile_suffix p).length_le
      rw [List.dropWhile_cons, if_pos hp] at h
      have := congrArg List.length h
      simp at this
      omega
    · cases hc
      simpa using hp

/-- A nonempty prefix has the same head. -/
theorem head?_of_isPrefix {α : Type} {x l : List α} (h : x <+: l) (hx : x ≠ []) :
    x.head? = l.head? := by
  obtain ⟨t, rfl⟩ := h
  cases x with
  | nil => exact absurd rfl hx
  | cons a b => rfl

/-- If a list has no leading `p`-element, dropping a `p`-run from its tail
end (`rdropWhile`) preserves that. -/
theorem dropWhile_rdropWhile {α : Type} (p : α → Bool) (m : List α)
    (h : m.dropWhile p = m) :
    (m.rdropWhile p).dropWhile p = m.rdropWhile p := by
  apply dropWhile_headF
  intro c hc
  have hpre : m.rdropWhile p <+: m := List.rdropWhile_prefix p m
  have hne : m.rdropWhile p ≠ [] := by
    intro hnil
    rw [hnil] at hc
    cases hc
  have hh := head?_of_isPrefix hpre hne
  exact headF_of_dropWhile_eq_self p m h c (hh ▸ hc)

/-- Python's `strip` is idempotent. -/
theorem pyStripL_idem (l : List Char) : pyStripL (pyStripL l) = pyStripL l := by
  unfold pyStripL
  rw [dropWhile_rdropWhile isPySpace (l.dropWhile isPySpace)
      (List.dropWhile_idempotent isPySpace _),
    List.rdropWhile_idempotent]

/-! ## Bridge lemmas: the translated loops versus library combinators -/

theorem keywordHit_eq_any (ks : List String) (low : List Char) :
    keywordHit ks low = ks.any (fun k => substrB k.data low) := by
  induction ks with
  | nil => rfl
  | cons k t ih =>
    by_cases h : substrB k.data low <;> simp [keywordHit, h, ih]

theorem scanRules_eq_findSome (rs : List (List String × String)) (low : List Char) :
    scanRules rs low = rs.findSome? (fun r =>
      if r.1.any (fun k => substrB k.data low) then some r.2 else none) := by
  induction rs with
  | nil => rfl
  | cons r t ih =>
    obtain ⟨kws, cat⟩ := r
    have hL : scanRules ((kws, cat) :: t) low =
        if keywordHit kws low then some cat else scanRules t low := rfl
    rw [hL, List.findSome?_cons, keywordHit_eq_any]
    cases hval : (kws.any fun k => substrB k.data low) <;> simp [ih]

theorem scanRules_none_of_all (rs : List (List String × String)) (low : List Char)
    (h : rs.all (fun r => r.1.all (fun k => !substrB k.data low)) = true) :
    scanRules rs low = none := by
  induction rs with
  | nil => rfl
  | cons r t ih =>
    obtain ⟨kws, cat⟩ := r
    simp only [List.all_cons, Bool.and_eq_true] at h
    have hk : keywordHit kws low = false := by
      rw [keywordHit_eq_any]
      simp only [List.any_eq_false]
      intro k hkmem
      have := List.all_eq_true.mp h.1 k hkmem
      simpa using this
    simp [scanRules, hk, ih h.2]

theorem scanCats_none_of_all (cs : List (String × List String)) (low : List Char)
    (h : cs.all (fun c => c.2.all (fun k => !substrB k.data low)) = true) :
    scanCats cs low = none := by
  induction cs with
  | nil => rfl
  | cons c t ih =>
    obtain ⟨cat, kws⟩ := c
    simp only [List.all_cons, Bool.and_eq_true] at h
    have hk : keywordHit kws low = false := by
      rw [keywordHit_eq_any]
      simp only [List.any_eq_false]
      intro k hkmem
      have := List.all_eq_true.mp h.1 k hkmem
      simpa using this
    simp [scanCats, hk, ih h.2]

theorem scanAbbrev_eq_find (l : List (String × String)) (up : List Char) :
    scanAbbrev l up = l.find? (fun kv => isPrefixB kv.1.data up) := by
  induction l with
  | nil => rfl
  | cons kv t ih =>
    obtain ⟨k, v⟩ := kv
    by_cases h : isPrefixB k.data up <;> simp [scanAbbrev, List.find?_cons, h, ih]

/-! ## C1: priority rules win, in declared order -/

/-- C1: the classifier evaluates the priority-rule list in declared order
against the lowercased normalized name and returns the first matching
rule's category before the general category keyword mapping is ever
consulted; in particular `"Chips Tortilla BONUS"` classifies as
`"Snacks & Zoetwaren"`. -/
theorem priority_rules_first :
    (∀ (name cat : String),
      priority_rules.findSome? (fun r =>
        if r.1.any (fun k => substrB k.data (lowerL (normalizeL name.data))) then some r.2
        else none) = some cat →
      categorize_product name = cat) ∧
    categorize_product "Chips Tortilla BONUS" = "Snacks & Zoetwaren" := by
  constructor
  · intro name cat h
    simp only [categorize_product, scanRules_eq_findSome, h]
  · rfl

/-- Witness for C1 at the spec's concrete example. -/
theorem priority_rules_first_witness :
    categorize_product "Chips Tortilla BONUS" = "Snacks & Zoetwaren" :=
  priority_rules_first.1 "Chips Tortilla BONUS" "Snacks & Zoetwaren" (by rfl)

/-! ## C2: idempotence of the normalizer -/

/-- The output of `normalizeL` is already stripped. -/
theorem normalizeL_strip_fixed (l : List Char) :
    pyStripL (normalizeL l) = normalizeL l := by
  by_cases h : endsWithBonus (pyStripL l) = true <;>
    simp [normalizeL, h, pyStripL_idem]

theorem normalizeL_idem_of (l : List Char)
    (h : endsWithBonus (normalizeL l) = false) :
    normalizeL (normalizeL l) = normalizeL l := by
  have hstep : normalizeL (normalizeL l) =
      if endsWithBonus (pyStripL (normalizeL l)) = true then
        pyStripL ((pyStripL (normalizeL l)).take ((pyStripL (normalizeL l)).length - 6))
      else pyStripL (normalizeL l) := rfl
  rw [hstep, normalizeL_strip_fixed, h]
  simp [normalizeL_strip_fixed]

/-- C2 counterexample: `normalize` is not idempotent — a name carrying two
`" BONUS"` suffixes loses exactly one per application
(`"A BONUS BONUS" ↦ "A BONUS" ↦ "A"`). -/
theorem normalize_not_idempotent :
    normalize_product_name (normalize_product_name "A BONUS BONUS") ≠
      normalize_product_name "A BONUS BONUS" := by decide

/-- C2 (amended): `normalize` is idempotent on every string whose
normalized form does not itself end, case-insensitively, in `" BONUS"`
(otherwise a second application strips one more suffix). -/
theorem normalize_idempotent_unless_bonus (x : String)
    (h : endsWithBonus (normalize_product_name x).data = false) :
    normalize_product_name (normalize_product_name x) = normalize_product_name x :=
  congrArg String.mk (normalizeL_idem_of x.data h)

/-- Witness for the amended C2. -/
theorem normalize_idempotent_witness :
    normalize_product_name (normalize_product_name "Product X BONUS") =
      normalize_product_name "Product X BONUS" :=
  normalize_idempotent_unless_bonus "Product X BONUS" (by rfl)

/-! ## C5: the `"Overig"` sentinel -/

/-- C5: when no priority-rule keyword and no category keyword occurs as a
substring of the lowercased normalized name, the classifier returns the
sentinel `"Overig"`; `determine_subcategory` returns `none` unconditionally
for a category absent from the subcategory taxonomy; and
`"random unlisted item 123"` yields `("Overig", none)`. -/
theorem overig_sentinel :
    (∀ name : String,
      priority_rules.all (fun r =>
        r.1.all (fun k => !substrB k.data (lowerL (normalizeL name.data)))) = true →
      CATEGORY_KEYWORDS.all (fun c =>
        c.2.all (fun k => !substrB k.data (lowerL (normalizeL name.data)))) = true →
      categorize_product name = "Overig") ∧
    (∀ name cat : String, lookupA SUBCATEGORY_KEYWORDS cat = none →
      determine_subcategory name cat = none) ∧
    categorize_product_full "random unlisted item 123" = ("Overig", none) := by
  refine ⟨?_, ?_, ?_⟩
  · intro name h1 h2
    simp only [categorize_product, scanRules_none_of_all _ _ h1,
      scanCats_none_of_all _ _ h2]
  · intro name cat h
    simp only [determine_subcategory, h]
  · rfl

/-- Witness for C5 at the spec's concrete example. -/
theorem overig_sentinel_witness :
    categorize_product "random unlisted item 123" = "Overig" ∧
    determine_subcategory "random unlisted item 123" "Overig" = none :=
  ⟨overig_sentinel.1 "random unlisted item 123" (by rfl) (by rfl),
   overig_sentinel.2.1 "random unlisted item 123" "Overig" (by rfl)⟩

/-! ## C6: abbreviation expansion -/

/-- C6 (amended): `expand_abbreviation` maps an exact uppercase-key hit to
the table's full name; otherwise the first table key (declaration order)
that is a prefix of the uppercased trimmed token yields the full name with
the remainder of the trimmed original-cased token appended; with no match
it returns the *trimmed* input; `expand "AH HV MELKX"` gives
`"AH Halfvolle melkX"`. -/
theorem expand_abbreviation_spec :
    (∀ s : String,
      (∀ full, lookupA ABBREVIATION_MAP (String.mk (upperL (pyStripL s.data))) = some full →
        expand_abbreviation s = full) ∧
      (∀ k v, lookupA ABBREVIATION_MAP (String.mk (upperL (pyStripL s.data))) = none →
        ABBREVIATION_MAP.find? (fun kv => isPrefixB kv.1.data (upperL (pyStripL s.data))) =
          some (k, v) →
        expand_abbreviation s = v ++ String.mk ((pyStripL s.data).drop k.length)) ∧
      (lookupA ABBREVIATION_MAP (String.mk (upperL (pyStripL s.data))) = none →
        ABBREVIATION_MAP.find? (fun kv => isPrefixB kv.1.data (upperL (pyStripL s.data))) =
          none →
        expand_abbreviation s = String.mk (pyStripL s.data))) ∧
    expand_abbreviation "AH HV MELKX" = "AH Halfvolle melkX" := by
  constructor
  · intro s
    refine ⟨?_, ?_, ?_⟩
    · intro full h
      simp only [expand_abbreviation, h]
    · intro k v h1 h2
      simp only [expand_abbreviation, h1, scanAbbrev_eq_find, h2]
    · intro h1 h2
      simp only [expand_abbreviation, h1, scanAbbrev_eq_find, h2]
  · rfl

/-- C6 counterexample: with no table match the source returns the *stripped*
input, so a padded token does not come back unchanged. -/
theorem expand_abbreviation_strips :
    expand_abbreviation " x " = "x" ∧ (" x " : String) ≠ "x" := by
  exact ⟨rfl, by decide⟩

/-- Witness for the amended C6, on the prefix-expansion branch. -/
theorem expand_abbreviation_spec_witness :
    expand_abbreviation "AH HV MELKX" =
      "AH Halfvolle melk" ++
        String.mk ((pyStripL "AH HV MELKX".data).drop ("AH HV MELK" : String).length) :=
  (expand_abbreviation_spec.1 "AH HV MELKX").2.1 "AH HV MELK" "AH Halfvolle melk"
    (by rfl) (by rfl)

/-! ## C7: the Leffe multi-unit parse and the tax heuristic -/

/-- C7: parsing `"2 LEFFE BLOND 1,11 2,22 B"` via the multi-unit form gives
quantity 2, price 2.22 and tax rate `"21%"` with the abbreviation-expanded
Leffe name, and `guess_btw` returns `"21%"` exactly when a keyword of the
fixed list occurs in the lowercased resolved name, else `"9%"`. -/
theorem multi_unit_leffe :
    ((parse_product_line "2 LEFFE BLOND 1,11 2,22 B").map
      (fun p => (p.quantity, p.price, p.btw, p.name)) =
      some (2, 2.22, "21%", "Leffe Blond bier")) ∧
    (∀ n : String, guess_btw n =
      if btw_21_keywords.any (fun k => substrB k.data (lowerL n.data)) then "21%"
      else "9%") := by
  constructor
  · have h : parse_product_line "2 LEFFE BLOND 1,11 2,22 B" = some
        { name := "Leffe Blond bier", quantity := 2, btw := "21%",
          price := priceQ (['2'], '2', '2'), category := "Dranken",
          subcategory := some "Bier" } := rfl
    rw [h]
    have hc : ('2'.toNat : ℕ) = 50 := rfl
    have hp : priceQ (['2'], '2', '2') = 2.22 := by
      norm_num [priceQ, digitsToNat, hc]
    simp [hp]
  · intro n
    simp only [guess_btw, keywordHit_eq_any]

/-! ## C3: the stop-marker property -/

/-- Each spec-named stop marker is one of the source's stop markers. -/
theorem claimStopMarkers_subset :
    ∀ m ∈ claimStopMarkers, m ∈ stop_markers := by decide

/-- C3 (amended): the receipt extractor emits zero items for all lines
after a line that triggers the stop condition — a line that contains a stop
marker in its uppercased stripped form *and* is not already skipped as a
blank/header line (the blank/`OMSCHRIJVING`/`BONUSKAART`/`AIRMILES` skip is
checked before the stop check, so a header line containing a marker does
not stop the run). -/
theorem stop_marker_property :
    (∀ text : String,
      extract_products_from_receipt text =
        receiptLines ((splitLines text.data).map String.mk)) ∧
    (∀ (pre post : List String) (l : String),
      isHeaderSkip (pyStripL l.data) = false →
      claimStopMarkers.any
        (fun m => substrB m.data (upperL (pyStripL l.data))) = true →
      receiptLines (pre ++ l :: post) = receiptLines (pre ++ [l])) := by
  constructor
  · intro text
    rfl
  · intro pre post l hskip hmark
    have hstop : hitsStop (pyStripL l.data) = true := by
      rw [List.any_eq_true] at hmark
      obtain ⟨m, hm, hsub⟩ := hmark
      rw [hitsStop, List.any_eq_true]
      exact ⟨m, claimStopMarkers_subset m hm, hsub⟩
    induction pre with
    | nil => simp [receiptLines, hskip, hstop]
    | cons a pre' ih => simp only [List.cons_append, receiptLines, List.append_eq, ih]

/-- C3 counterexample for the claim as stated: a line containing the
total-due stop marker but also the `OMSCHRIJVING` header token is skipped
rather than stopping, so a later product line still emits an item. -/
theorem stop_marker_counterexample :
    substrB "TOTAAL".data (upperL (pyStripL "OMSCHRIJVING TOTAAL".data)) = true ∧
    extract_products_from_receipt "OMSCHRIJVING TOTAAL" = [] ∧
    (extract_products_from_receipt
      "OMSCHRIJVING TOTAAL\n1 PAPRIKA GEEL 1,29").length = 1 :=
  ⟨rfl, rfl, rfl⟩

/-- Witness for the amended C3. -/
theorem stop_marker_property_witness :
    receiptLines
        (["1 PAPRIKA GEEL 1,29"] ++ "SUBTOTAAL 12,34" :: ["2 LEFFE BLOND 1,11 2,22 B"]) =
      receiptLines (["1 PAPRIKA GEEL 1,29"] ++ ["SUBTOTAAL 12,34"]) :=
  stop_marker_property.2 ["1 PAPRIKA GEEL 1,29"] ["2 LEFFE BLOND 1,11 2,22 B"]
    "SUBTOTAAL 12,34" (by rfl) (by rfl)

/-! ## C9: keyword-table mutation failures -/

/-- C9 (amended): the keyword-mutation operations fail with the not-found
result when the named category does not exist (for `add`, provided the
lowered stripped keyword is nonempty — an empty keyword fails with the
empty-keyword result first), removal fails with a not-found result when the
keyword is missing from the category's list, and adding a keyword already
present fails with the conflict result; every such failure is returned as a
value with `success := false` and leaves the table unchanged. -/
theorem mutation_failures :
    ∀ (cat kw : String) (tbl : List (String × List String)),
      (String.mk (lowerL (pyStripL kw.data)) = "" →
        add_keyword_to_category cat kw tbl =
          (⟨false, some "Keyword cannot be empty"⟩, tbl)) ∧
      (String.mk (lowerL (pyStripL kw.data)) ≠ "" → lookupA tbl cat = none →
        add_keyword_to_category cat kw tbl =
          (⟨false, some ("Category \x27" ++ cat ++ "\x27 not found")⟩, tbl)) ∧
      (String.mk (lowerL (pyStripL kw.data)) ≠ "" →
        ∀ kws, lookupA tbl cat = some kws →
        kws.contains (String.mk (lowerL (pyStripL kw.data))) = true →
        add_keyword_to_category cat kw tbl =
          (⟨false, some ("Keyword \x27" ++ String.mk (lowerL (pyStripL kw.data)) ++
            "\x27 already exists in " ++ cat)⟩, tbl)) ∧
      (lookupA tbl cat = none →
        remove_keyword_from_category cat kw tbl =
          (⟨false, some ("Category \x27" ++ cat ++ "\x27 not found")⟩, tbl)) ∧
      (∀ kws, lookupA tbl cat = some kws →
        kws.contains (String.mk (lowerL (pyStripL kw.data))) = false →
        remove_keyword_from_category cat kw tbl =
          (⟨false, some ("Keyword \x27" ++ String.mk (lowerL (pyStripL kw.data)) ++
            "\x27 not found in " ++ cat)⟩, tbl)) := by
  intro cat kw tbl
  refine ⟨?_, ?_, ?_, ?_, ?_⟩
  · intro h0
    simp only [add_keyword_to_category]
    rw [if_pos h0]
  · intro hne hlook
    simp only [add_keyword_to_category]
    rw [if_neg hne, hlook]
  · intro hne kws hlook hmem
    simp only [add_keyword_to_category]
    rw [if_neg hne, hlook]
    have hm : String.mk (lowerL (pyStripL kw.data)) ∈ kws := by simpa using hmem
    simp [hm]
  · intro hlook
    simp only [remove_keyword_from_category]
    rw [hlook]
  · intro kws hlook hmem
    simp only [remove_keyword_from_category]
    rw [hlook]
    have hm : String.mk (lowerL (pyStripL kw.data)) ∉ kws := by simpa using hmem
    simp [hm]

/-- C9 counterexample for the claim as stated: adding an *empty* keyword to
a nonexistent category fails with the empty-keyword result, not the
not-found result (the empty-keyword guard runs first). -/
theorem mutation_empty_keyword_counterexample :
    lookupA CATEGORY_KEYWORDS "Nonexistent" = none ∧
    add_keyword_to_category "Nonexistent" "" CATEGORY_KEYWORDS =
      (⟨false, some "Keyword cannot be empty"⟩, CATEGORY_KEYWORDS) ∧
    some "Keyword cannot be empty" ≠
      some ("Category \x27" ++ "Nonexistent" ++ "\x27 not found") :=
  ⟨rfl, rfl, by decide⟩

/-- Witness for the amended C9 at concrete inputs: a missing category on
add, a conflicting keyword on add, a missing category on remove, and a
missing keyword on remove, all against `CATEGORY_KEYWORDS`. -/
theorem mutation_failures_witness :
    (add_keyword_to_category "Nonexistent" "newkw" CATEGORY_KEYWORDS =
      (⟨false, some ("Category \x27" ++ "Nonexistent" ++ "\x27 not found")⟩,
        CATEGORY_KEYWORDS)) ∧
    (add_keyword_to_category "Zuivel & Eieren" "melk" CATEGORY_KEYWORDS =
      (⟨false, some ("Keyword \x27" ++ String.mk (lowerL (pyStripL "melk".data)) ++
        "\x27 already exists in " ++ "Zuivel & Eieren")⟩, CATEGORY_KEYWORDS)) ∧
    (remove_keyword_from_category "Nonexistent" "melk" CATEGORY_KEYWORDS =
      (⟨false, some ("Category \x27" ++ "Nonexistent" ++ "\x27 not found")⟩,
        CATEGORY_KEYWORDS)) ∧
    (remove_keyword_from_category "Zuivel & Eieren" "pizza" CATEGORY_KEYWORDS =
      (⟨false, some ("Keyword \x27" ++ String.mk (lowerL (pyStripL "pizza".data)) ++
        "\x27 not found in " ++ "Zuivel & Eieren")⟩, CATEGORY_KEYWORDS)) :=
  ⟨(mutation_failures "Nonexistent" "newkw" CATEGORY_KEYWORDS).2.1
      (by decide) (by rfl),
   (mutation_failures "Zuivel & Eieren" "melk" CATEGORY_KEYWORDS).2.2.1
      (by decide) _ (by rfl) (by rfl),
   (mutation_failures "Nonexistent" "melk" CATEGORY_KEYWORDS).2.2.2.1 (by rfl),
   (mutation_failures "Zuivel & Eieren" "pizza" CATEGORY_KEYWORDS).2.2.2.2 _
      (by rfl) (by rfl)⟩

/-! ## Soundness of the emitted items (C4, C8, C10) -/

/-- `guess_btw` only ever returns `"9%"` or `"21%"`. -/
theorem guess_btw_mem (n : String) : guess_btw n = "9%" ∨ guess_btw n = "21%" := by
  unfold guess_btw
  by_cases h : keywordHit btw_21_keywords (lowerL n.data) = true <;> simp [h]

/-- Parsed weights are nonnegative. -/
theorem fracQ_nonneg (ds fs : List Char) : 0 ≤ fracQ ds fs := by
  unfold fracQ
  positivity

/-- C4 counterexample: the quantity field of a matched receipt line may be
the literal `0`, and a weighed line may parse with weight `0,00`, refuting
`quantity ≥ 1` and `weightKg > 0` as stated. -/
theorem quantity_zero_counterexample :
    (extract_products_from_receipt "0 ABC 1,29\n0,00KG DEF 1,00 0,00").map
        (fun p => (p.quantity, p.weight_kg)) =
      [(0, none), (1, some (fracQ ['0'] ['0', '0']))] ∧
    fracQ ['0'] ['0', '0'] = 0 := by
  constructor
  · rfl
  · have hc : ('0'.toNat : ℕ) = 48 := rfl
    norm_num [fracQ, digitsToNat, List.foldl, hc]

/-
The remaining lemmas reason about the extractors on *symbolic* input, where
the classifier and normalizer applications stay opaque; making them
irreducible keeps definitional unfolding from diving into the keyword
tables.  (`semireducible` is restored below; the kernel is unaffected.)
-/
attribute [irreducible] guess_btw categorize_product determine_subcategory
  expand_abbreviation normalize_product_name pyStripL subTrailingB fmt3

/-- Projections of the weighed-line item. -/
theorem weightItem_quantity (w : List Char × List Char) (nameRaw : List Char)
    (ptot : List Char × Char × Char) : (weightItem w nameRaw ptot).quantity = 1 := rfl

theorem weightItem_btw (w : List Char × List Char) (nameRaw : List Char)
    (ptot : List Char × Char × Char) : (weightItem w nameRaw ptot).btw = "9%" := rfl

theorem weightItem_weight (w : List Char × List Char) (nameRaw : List Char)
    (ptot : List Char × Char × Char) :
    (weightItem w nameRaw ptot).weight_kg = some (fracQ w.1 w.2) := rfl

/-- Projections of the unit-line item. -/
theorem unitItem_quantity (qds nameRaw : List Char) (pr : List Char × Char × Char) :
    (unitItem qds nameRaw pr).quantity = (digitsToNat qds : Int) := rfl

theorem unitItem_weight (qds nameRaw : List Char) (pr : List Char × Char × Char) :
    (unitItem qds nameRaw pr).weight_kg = none := rfl

theorem unitItem_btw_mem (qds nameRaw : List Char) (pr : List Char × Char × Char) :
    (unitItem qds nameRaw pr).btw = "9%" ∨ (unitItem qds nameRaw pr).btw = "21%" :=
  guess_btw_mem _

/-- Every product produced by `parse_product_line` has a nonnegative
quantity and a tax rate of `"9%"` or `"21%"`; a weighed item additionally
has quantity exactly 1 and a nonnegative weight. -/
theorem parse_product_line_sound (line : String) (p : Product)
    (h : parse_product_line line = some p) :
    0 ≤ p.quantity ∧ (p.btw = "9%" ∨ p.btw = "21%") ∧
      (p.weight_kg = none ∨
        (p.quantity = 1 ∧ ∃ w, p.weight_kg = some w ∧ 0 ≤ w)) := by
  rcases hw : weight_match line.data with _ | ⟨w, nameRaw, _pkg, ptot⟩
  · rcases hm : multi_match line.data with _ | ⟨qds, nameRaw, _punit, ptot⟩
    · rcases hs : single_match line.data with _ | ⟨qds, nameRaw, pr⟩
      · rw [parse_product_line, hw, hm, hs] at h
        cases h
      · rw [parse_product_line, hw, hm, hs] at h
        cases h
        refine ⟨?_, unitItem_btw_mem _ _ _, Or.inl (unitItem_weight _ _ _)⟩
        rw [unitItem_quantity]
        exact Int.natCast_nonneg _
    · rw [parse_product_line, hw, hm] at h
      cases h
      refine ⟨?_, unitItem_btw_mem _ _ _, Or.inl (unitItem_weight _ _ _)⟩
      rw [unitItem_quantity]
      exact Int.natCast_nonneg _
  · rw [parse_product_line, hw] at h
    cases h
    refine ⟨?_, Or.inl (weightItem_btw _ _ _),
      Or.inr ⟨weightItem_quantity _ _ _, fracQ w.1 w.2, weightItem_weight _ _ _,
        fracQ_nonneg _ _⟩⟩
    rw [weightItem_quantity]
    norm_num

/-- Every item emitted by the receipt line loop satisfies
`parse_product_line`'s guarantees. -/
theorem receiptLines_sound (lines : List String) (p : Product)
    (hp : p ∈ receiptLines lines) :
    0 ≤ p.quantity ∧ (p.btw = "9%" ∨ p.btw = "21%") ∧
      (p.weight_kg = none ∨
        (p.quantity = 1 ∧ ∃ w, p.weight_kg = some w ∧ 0 ≤ w)) := by
  induction lines with
  | nil => cases hp
  | cons l rest ih =>
    simp only [receiptLines] at hp
    split at hp
    · exact ih hp
    · split at hp
      · cases hp
      · split at hp
        · exact ih hp
        · split at hp
          · next p' heq =>
            rcases List.mem_cons.mp hp with rfl | hmem
            · exact parse_product_line_sound _ p heq
            · exact ih hmem
          · exact ih hp

/-- Every item emitted by the invoice per-match loop has a nonnegative
quantity and a stripped captured name of length at least 3 that, with
spaces removed, does not consist only of digits. -/
theorem invoiceProcess_sound :
    ∀ (ms : List (List Char × List Char × String × List Char × List Char × List Char))
      (seen : List (String × Int × ℚ))
      (ps : List Product), invoiceProcess ms seen = some ps → ∀ p ∈ ps,
    0 ≤ p.quantity ∧ ∃ n : String, p.original_name_raw = some n ∧
      3 ≤ n.length ∧ pyIsDigitStr (n.data.filter (fun c => c ≠ ' ')) = false := by
  intro ms
  induction ms with
  | nil =>
    intro seen ps h p hp
    cases h
    cases hp
  | cons m rest ih =>
    obtain ⟨nameG, qds, tax, a1, a2, a3⟩ := m
    intro seen ps h p hp
    simp only [invoiceProcess] at h
    split at h
    · cases h
    · split at h
      · exact ih _ _ h p hp
      · split at h
        · exact ih _ _ h p hp
        · split at h
          · exact ih _ _ h p hp
          · split at h
            · exact ih _ _ h p hp
            · next hlen3 hdig hdup =>
              rw [Option.map_eq_some'] at h
              obtain ⟨ps', hps', hcons⟩ := h
              subst hcons
              rcases List.mem_cons.mp hp with rfl | hmem
              · refine ⟨?_, _, rfl, ?_, ?_⟩
                · exact Int.natCast_nonneg _
                · omega
                · exact eq_false_of_ne_true hdig
              · exact ih _ _ hps' p hmem

/-! ## C4: quantity and weight invariants -/

/-- C4 (amended): every item emitted by the invoice extractor or the
receipt extractor has quantity ≥ 0 (the grammars also accept a literal
quantity field `0`, so ≥ 1 does not hold in general), and every item from a
weighed receipt line has quantity exactly 1 with an attached weight ≥ 0. -/
theorem emitted_quantities :
    (∀ text : String, ((extract_products_from_text text).getD []).all
      (fun p => decide (0 ≤ p.quantity)) = true) ∧
    (∀ text : String, (extract_products_from_receipt text).all
      (fun p => decide (0 ≤ p.quantity) &&
        (match p.weight_kg with
         | some w => decide (p.quantity = 1) && decide (0 ≤ w)
         | none => true)) = true) := by
  constructor
  · intro text
    rw [List.all_eq_true]
    intro p hp
    match hext : extract_products_from_text text with
    | none => rw [hext] at hp; cases hp
    | some ps =>
      rw [hext] at hp
      have := invoiceProcess_sound _ _ _ hext p hp
      exact decide_eq_true this.1
  · intro text
    rw [List.all_eq_true]
    intro p hp
    obtain ⟨hq, _, hw⟩ := receiptLines_sound _ p hp
    rw [Bool.and_eq_true]
    refine ⟨decide_eq_true hq, ?_⟩
    match hwv : p.weight_kg with
    | none => rfl
    | some w =>
      rcases hw with hnone | ⟨hq1, w', hw', hge⟩
      · rw [hwv] at hnone; cases hnone
      · rw [hwv] at hw'
        cases hw'
        rw [Bool.and_eq_true]
        exact ⟨decide_eq_true hq1, decide_eq_true hge⟩

/-! ## C8: invoice name filter -/

/-- C8: every item emitted by the invoice extractor has a captured name
that, stripped, is at least 3 characters long and, with spaces removed,
does not consist only of digits — lines failing either test are
rejected. -/
theorem invoice_name_filter :
    ∀ text : String, ((extract_products_from_text text).getD []).all
      (fun p => decide (3 ≤ (p.original_name_raw.getD "").length) &&
        !pyIsDigitStr ((p.original_name_raw.getD "").data.filter
          (fun c => c ≠ ' '))) = true := by
  intro text
  rw [List.all_eq_true]
  intro p hp
  match hext : extract_products_from_text text with
  | none => rw [hext] at hp; cases hp
  | some ps =>
    rw [hext] at hp
    obtain ⟨_, n, hn, hlen, hdig⟩ := invoiceProcess_sound _ _ _ hext p hp
    rw [hn]
    rw [Bool.and_eq_true]
    exact ⟨decide_eq_true hlen, by simpa using hdig⟩

/-! ## C10: receipt tax rates -/

/-- C10: every item emitted by the receipt extractor carries tax rate
`"9%"` or `"21%"`; the `"Geen"` member of the tax-rate enum is never
produced by the receipt pipeline. -/
theorem receipt_btw_range :
    ∀ text : String, (extract_products_from_receipt text).all
      (fun p => p.btw == "9%" || p.btw == "21%") = true := by
  intro text
  rw [List.all_eq_true]
  intro p hp
  rcases (receiptLines_sound _ p hp).2.1 with h | h <;> simp [h]

end Appestat
